import Mathlib

/-! Authentication controller of the job portal.

A shallow embedding of `server/controllers/user/userAuthController.js`
(`signUp`, `login`, `googleSignIn`, `checkResetToken`, `resetPassword`).

Every handler is a function from the request, the capabilities it calls
(`Env`) and the database state (`Db`) to the HTTP response it sends and the
database state it leaves behind.  An exception thrown inside a `try` block is
a value of `Thrown`; the `catch` block of each handler is the last branch of
the handler.
-/

namespace JobPortal

/-! ## JavaScript values -/

/-- JavaScript truthiness of a value that is `undefined` or a string:
`undefined` and the empty string are falsy. -/
def truthy : Option String → Bool
  | none => false
  | some s => s != ""

/-- The value itself when it is truthy: the strings that pass an `if (!x)` guard. -/
def present : Option String → Option String
  | none => none
  | some s => if s = "" then none else some s

/-- A value of a parsed JSON request body: absent, `null`, a string, a number
(an integer stands for it: only zero is falsy), a boolean, or an object or
array, kept as its JSON text. -/
inductive JsValue where
  | undefined
  | null
  | string (s : String)
  | number (n : Int)
  | boolean (b : Bool)
  | object (text : String)
  deriving DecidableEq, Repr

/-- JavaScript truthiness of a JSON value: `undefined`, `null`, the empty
string, zero and `false` are falsy; every object and array is truthy. -/
def JsValue.truthy : JsValue → Bool
  | JsValue.undefined => false
  | JsValue.null => false
  | JsValue.string s => s != ""
  | JsValue.number n => n != 0
  | JsValue.boolean b => b
  | JsValue.object _ => true

/-- Interpolation of an optional string in a template literal. -/
def jsStr : Option String → String
  | none => "undefined"
  | some s => s

/-! ## JSON web tokens (`jsonwebtoken`) -/

/-- The claim sets this controller signs or reads: `userInfo` is the nested
`{ id, role }` object of an access token, `id` and `role` are the flat
claims of a refresh token, `email` is the claim of a reset token. -/
structure Claims where
  userInfo : Option (String × String)
  id : Option String
  role : Option String
  email : Option String
  deriving DecidableEq, Repr

/-- A token string: either a well-formed JWT, with the claim set it carries,
the secret it was signed with and its `exp` claim (seconds), or a string
that is not a JWT at all. -/
inductive Token where
  | jwt (claims : Claims) (secret : String) (exp : Option Nat)
  | raw (text : String)
  deriving DecidableEq, Repr

/-- Truthiness of a cookie value: `undefined` and the empty string are falsy. -/
def Token.truthy : Option Token → Bool
  | none => false
  | some (Token.raw s) => s != ""
  | some (Token.jwt _ _ _) => true

/-- The errors `jwt.verify` throws. -/
inductive JwtError where
  | malformed
  | invalidSignature
  | expired
  deriving DecidableEq, Repr

/-- The call `jwt.sign(claims, secret, { expiresIn: "1h" })` at time `now`. -/
def jwtSign (claims : Claims) (secret : String) (now : Nat) : Token :=
  Token.jwt claims secret (some (now + 60 * 60))

/-- The call `jwt.verify(token, secret)` at time `now`: the decoded claims,
or the error thrown.  A signature verifies exactly under the secret the
token was signed with; a token is expired from its `exp` on. -/
def jwtVerify (token : Token) (secret : String) (now : Nat) : Except JwtError Claims :=
  match token with
  | Token.raw _ => Except.error JwtError.malformed
  | Token.jwt claims signedWith exp =>
    if signedWith ≠ secret then Except.error JwtError.invalidSignature
    else match exp with
      | none => Except.ok claims
      | some e => if e ≤ now then Except.error JwtError.expired else Except.ok claims

/-! ## The database -/

/-- Modelled from the spec: the `User` schema (`models/User.js` is not among
the sources).  An account has a unique email, first and last name, phone, a
password hash that may be empty, a role, a blocked flag and an optional
federated-identity id. -/
structure User where
  _id : String
  firstName : Option String
  lastName : Option String
  email : String
  phone : Option String
  password : String
  role : String
  isBlocked : Bool
  googleId : Option String
  deriving DecidableEq, Repr

/-- Modelled from the spec: the `Otp` schema (`models/Otp.js` is not among
the sources): target email, code value, issuance timestamp. -/
structure OtpRecord where
  email : String
  otp : String
  createdAt : Nat
  deriving DecidableEq, Repr

/-- The two collections the controller reads and writes. -/
structure Db where
  users : List User
  otps : List OtpRecord
  deriving DecidableEq, Repr

/-- The query `User.findOne({ email })`: the first account whose email is the
filter value.  An `undefined` filter value reaches MongoDB as `null`, which
no account matches, since every account has an email. -/
def findOne (users : List User) (email : Option String) : Option User :=
  users.find? (fun u => decide (some u.email = email))

/-- The order of `sort({ createdAt: -1 })`: `a` may stand before `b`. -/
def newerFirst (a b : OtpRecord) : Prop := b.createdAt ≤ a.createdAt

instance : DecidableRel newerFirst :=
  fun a b => inferInstanceAs (Decidable (b.createdAt ≤ a.createdAt))

instance : IsTotal OtpRecord newerFirst :=
  ⟨fun a b => Nat.le_total b.createdAt a.createdAt⟩

instance : IsTrans OtpRecord newerFirst :=
  ⟨fun _ _ _ hab hbc => Nat.le_trans hbc hab⟩

/-- The query `OTP.find({ email }).sort({ createdAt: -1 }).limit(1)`. -/
def findLatestOtp (otps : List OtpRecord) (email : String) : List OtpRecord :=
  ((otps.filter (fun r => decide (r.email = email))).insertionSort newerFirst).take 1

/-- A record is a most recent one for `email` in the ledger: it is issued to
`email` and no record issued to `email` has a later timestamp. -/
def mostRecentFor (otps : List OtpRecord) (email : String) (r : OtpRecord) : Prop :=
  r ∈ otps ∧ r.email = email ∧ ∀ q ∈ otps, q.email = email → q.createdAt ≤ r.createdAt

/-- What a handler's `try` block can throw. -/
inductive Thrown where
  | jwt (e : JwtError)
  | verifyIdToken (reason : String)
  | duplicateKey (email : String)
  | bcrypt (message : String)
  deriving DecidableEq, Repr

/-- Modelled from the spec: inserting a new account (`user.save()` on a new
document, `User.create`).  The store enforces uniqueness of the email: the
insert throws when an account with that email is already stored. -/
def insertUser (users : List User) (u : User) : Except Thrown (List User) :=
  if users.any (fun v => decide (v.email = u.email)) then
    Except.error (Thrown.duplicateKey u.email)
  else Except.ok (users ++ [u])

/-- The call `user.save()` on a stored account: the stored document with the
same `_id` is replaced. -/
def saveUser (users : List User) (u : User) : List User :=
  users.map (fun v => if v._id = u._id then u else v)

/-- The store invariant of the data model: no two accounts share an email. -/
def emailsUnique (users : List User) : Prop :=
  users.Pairwise (fun a b => a.email ≠ b.email)

/-- The accounts have distinct ids. -/
def idsUnique (users : List User) : Prop :=
  users.Pairwise (fun a b => a._id ≠ b._id)

/-- The id and the email of every stored account, in store order. -/
def keys (users : List User) : List (String × String) :=
  users.map (fun u => (u._id, u.email))

/-- The number of stored accounts with the given email. -/
def accountsWith (users : List User) (email : String) : Nat :=
  users.countP (fun u => decide (u.email = email))

/-! ## Capabilities and responses -/

/-- The verified profile `ticket.getPayload()` returns. -/
structure GooglePayload where
  email_verified : Bool
  email : String
  given_name : Option String
  family_name : Option String
  sub : String
  deriving DecidableEq, Repr

/-- The process environment and the collaborators of one request: the three
secrets (all set), the clock in seconds, the password hasher (`bcrypt.hash`
with cost 10 and `bcrypt.compare`), the Google client, the `ObjectId` a new
document receives and the default of the schema's `role` field. -/
structure Env where
  ACCESS_TOKEN_SECRET : String
  REFRESH_TOKEN_SECRET : String
  RESET_TOKEN_SECRET : String
  now : Nat
  bcryptHash : String → String
  bcryptCompare : String → String → Bool
  verifyIdToken : String → Except String GooglePayload
  newObjectId : String
  defaultRole : String

/-- A cookie set with `res.cookie(name, value, options)`. -/
structure Cookie where
  name : String
  value : Token
  httpOnly : Bool
  secure : Bool
  sameSite : String
  maxAge : Nat
  deriving DecidableEq, Repr

/-- The response a handler sends: status, the JSON body (`message`, and on
success `accessToken` and `role`), and the cookie set, if any. -/
structure Response where
  status : Nat
  message : String
  accessToken : Option Token
  role : Option String
  cookie : Option Cookie
  deriving DecidableEq, Repr

/-- The response `res.status(status).json({ message })`. -/
def json (status : Nat) (message : String) : Response :=
  { status := status, message := message, accessToken := none, role := none, cookie := none }

/-- The access token every flow signs for an account. -/
def accessTokenFor (env : Env) (user : User) : Token :=
  jwtSign { userInfo := some (user._id, user.role), id := none, role := none, email := none }
    env.ACCESS_TOKEN_SECRET env.now

/-- The refresh token every flow signs for an account. -/
def refreshTokenFor (env : Env) (user : User) : Token :=
  jwtSign { userInfo := none, id := some user._id, role := some user.role, email := none }
    env.REFRESH_TOKEN_SECRET env.now

/-- The cookie `res.cookie("jwt", refreshToken, { httpOnly: true, secure: false,
sameSite: "lax", maxAge: 60 * 60 * 1000 })`. -/
def refreshCookie (refreshToken : Token) : Cookie :=
  { name := "jwt", value := refreshToken, httpOnly := true, secure := false,
    sameSite := "lax", maxAge := 60 * 60 * 1000 }

/-- The success response of the three sign-in flows: the refresh cookie and
`res.status(status).json({ message, accessToken, role: user.role })`. -/
def signedIn (env : Env) (status : Nat) (message : String) (user : User) : Response :=
  { status := status, message := message,
    accessToken := some (accessTokenFor env user),
    role := some user.role,
    cookie := some (refreshCookie (refreshTokenFor env user)) }

/-- The cookie value itself when it is truthy. -/
def Token.present (t : Option Token) : Option Token :=
  if Token.truthy t then t else none

/-- A `try { ... } catch (error) { ... }` block: the response of the body, or
the response of the handler when the body throws; in both cases with the
database as the body left it. -/
def tryCatch (body : Db × Except Thrown Response) (handler : Thrown → Response) :
    Response × Db :=
  match body.2 with
  | Except.ok r => (r, body.1)
  | Except.error e => (handler e, body.1)

/-! ## The handlers -/

/-- The body of a `signUp` request, with every field taken at its string
values. -/
structure SignUpBody where
  firstName : Option String
  lastName : Option String
  email : Option String
  phone : Option String
  password : Option String
  otp : Option String
  deriving DecidableEq, Repr

/-- The `catch` block of `signUp`. -/
def signUpCatch (_error : Thrown) : Response :=
  json 500 "Error creating user"

/-- The `try` block of `signUp`, entered with all six fields truthy.
`racing` are the accounts other requests insert between this request's
lookups and its `user.save()`; a sequential run has none. -/
def signUpTry (env : Env) (firstName lastName email phone password otp : String)
    (db : Db) (racing : List User) : Db × Except Thrown Response :=
  match findOne db.users (some email) with
  | some _ => (db, Except.ok (json 400 "Email already in use."))
  | none =>
    match findLatestOtp db.otps email with
    | [] => (db, Except.ok (json 422 "Invalid OTP"))
    | r :: _ =>
      if r.otp ≠ otp then (db, Except.ok (json 422 "Invalid OTP"))
      else
        let hashedPassword := env.bcryptHash password
        let user : User :=
          { _id := env.newObjectId, firstName := some firstName, lastName := some lastName,
            email := email, phone := some phone, password := hashedPassword,
            role := env.defaultRole, isBlocked := false, googleId := none }
        match insertUser (db.users ++ racing) user with
        | Except.error e => ({ db with users := db.users ++ racing }, Except.error e)
        | Except.ok users =>
          ({ db with users := users },
            Except.ok (signedIn env 201 "User created successfully" user))

/-- The handler `signUp`. -/
def signUp (env : Env) (body : SignUpBody) (db : Db) (racing : List User) : Response × Db :=
  match present body.firstName, present body.lastName, present body.email,
      present body.phone, present body.password, present body.otp with
  | some firstName, some lastName, some email, some phone, some password, some otp =>
    tryCatch (signUpTry env firstName lastName email phone password otp db racing) signUpCatch
  | _, _, _, _, _, _ => (json 400 "Please fill in all fields.", db)

/-- The body of a `login` request.  The password is any JSON value; the email
is taken at its string values. -/
structure LoginBody where
  email : Option String
  password : JsValue
  deriving DecidableEq, Repr

/-- The call `bcrypt.compare(data, hash)` on a truthy `data` and a stored
hash: the result of the comparison when `data` is a string, and the error
`bcrypt` throws when it is not. -/
def bcryptCompareJs (env : Env) (data : JsValue) (hash : String) : Except Thrown Bool :=
  match data with
  | JsValue.string s => Except.ok (env.bcryptCompare s hash)
  | _ => Except.error (Thrown.bcrypt "data and hash must be strings")

/-- The `catch` block of `login`. -/
def loginCatch (_error : Thrown) : Response :=
  json 500 "Error logging in"

/-- The `try` block of `login`, entered with both fields truthy. -/
def loginTry (env : Env) (email : String) (password : JsValue) (db : Db) :
    Db × Except Thrown Response :=
  match findOne db.users (some email) with
  | none => (db, Except.ok (json 401 "Email or password is incorrect"))
  | some user =>
    match bcryptCompareJs env password user.password with
    | Except.error e => (db, Except.error e)
    | Except.ok isValidPassword =>
      if !isValidPassword then (db, Except.ok (json 401 "Email or password is incorrect"))
      else if user.isBlocked then (db, Except.ok (json 403 "Your account has been blocked"))
      else
        (db, Except.ok
          (signedIn env 200 (jsStr user.firstName ++ " logged in successfully") user))

/-- The handler `login`. -/
def login (env : Env) (body : LoginBody) (db : Db) : Response × Db :=
  match present body.email with
  | none => (json 400 "Please fill in all fields.", db)
  | some email =>
    if !body.password.truthy then (json 400 "Please fill in all fields.", db)
    else tryCatch (loginTry env email body.password db) loginCatch

/-- The `catch` block of `googleSignIn`. -/
def googleSignInCatch (_error : Thrown) : Response :=
  json 500 "Error during Google sign in"

/-- The `try` block of `googleSignIn`, entered with a truthy `tokenId`.  The
`user.save()` that follows `User.create` has nothing left to write. -/
def googleSignInTry (env : Env) (tokenId : String) (db : Db) : Db × Except Thrown Response :=
  match env.verifyIdToken tokenId with
  | Except.error reason => (db, Except.error (Thrown.verifyIdToken reason))
  | Except.ok payload =>
    if !payload.email_verified then
      (db, Except.ok (json 400 "Google account email not verified."))
    else
      match findOne db.users (some payload.email) with
      | none =>
        let user : User :=
          { _id := env.newObjectId, firstName := payload.given_name,
            lastName := payload.family_name, email := payload.email, phone := none,
            password := "", role := env.defaultRole, isBlocked := false,
            googleId := some payload.sub }
        match insertUser db.users user with
        | Except.error e => (db, Except.error e)
        | Except.ok users =>
          ({ db with users := users },
            Except.ok (signedIn env 200
              (jsStr user.firstName ++ " logged in successfully via Google") user))
      | some found =>
        if found.isBlocked then (db, Except.ok (json 403 "Your account has been blocked"))
        else if !truthy found.googleId then
          let user : User := { found with googleId := some payload.sub }
          ({ db with users := saveUser db.users user },
            Except.ok (signedIn env 200
              (jsStr user.firstName ++ " logged in successfully via Google") user))
        else
          (db, Except.ok (signedIn env 200
            (jsStr found.firstName ++ " logged in successfully via Google") found))

/-- The handler `googleSignIn`. -/
def googleSignIn (env : Env) (tokenId : Option String) (db : Db) : Response × Db :=
  match present tokenId with
  | none => (json 400 "No token provided for goole signin", db)
  | some tokenId => tryCatch (googleSignInTry env tokenId db) googleSignInCatch

/-- The `catch` block of `checkResetToken`. -/
def checkResetTokenCatch (_error : Thrown) : Response :=
  json 401 "Invalid or expired token"

/-- The `try` block of `checkResetToken`; `resetToken` is `req.cookies?.resetToken`. -/
def checkResetTokenTry (env : Env) (resetToken : Option Token) (db : Db) :
    Db × Except Thrown Response :=
  match Token.present resetToken with
  | none => (db, Except.ok (json 401 "Unauthorized or token expired"))
  | some resetToken =>
    match jwtVerify resetToken env.RESET_TOKEN_SECRET env.now with
    | Except.error e => (db, Except.error (Thrown.jwt e))
    | Except.ok decoded =>
      if !truthy decoded.email then (db, Except.ok (json 401 "Invalid token"))
      else
        match findOne db.users decoded.email with
        | none => (db, Except.ok (json 401 "Invalid token"))
        | some _ => (db, Except.ok (json 200 "Token valid"))

/-- The handler `checkResetToken`. -/
def checkResetToken (env : Env) (resetToken : Option Token) (db : Db) : Response × Db :=
  tryCatch (checkResetTokenTry env resetToken db) checkResetTokenCatch

/-- The `catch` block of `resetPassword`. -/
def resetPasswordCatch (_error : Thrown) : Response :=
  json 500 "Error during password reset"

/-- The `try` block of `resetPassword`; `newPassword` is `req.body.newPassword`
and `resetToken` is `req.cookies?.resetToken`. -/
def resetPasswordTry (env : Env) (newPassword : Option String) (resetToken : Option Token)
    (db : Db) : Db × Except Thrown Response :=
  match present newPassword with
  | none => (db, Except.ok (json 400 "New password is required"))
  | some newPassword =>
    match Token.present resetToken with
    | none => (db, Except.ok (json 401 "Unauthorized or token expired"))
    | some resetToken =>
      match jwtVerify resetToken env.RESET_TOKEN_SECRET env.now with
      | Except.error e => (db, Except.error (Thrown.jwt e))
      | Except.ok decoded =>
        match findOne db.users decoded.email with
        | none => (db, Except.ok (json 404 "User not found"))
        | some found =>
          let hashedPassword := env.bcryptHash newPassword
          let user : User := { found with password := hashedPassword }
          ({ db with users := saveUser db.users user },
            Except.ok (json 200 "Password reset successfully"))

/-- The handler `resetPassword`. -/
def resetPassword (env : Env) (newPassword : Option String) (resetToken : Option Token)
    (db : Db) : Response × Db :=
  tryCatch (resetPasswordTry env newPassword resetToken db) resetPasswordCatch

/-! ## Sample data -/

/-- A sample hasher: the hash of `p` is `p` behind a fixed prefix. -/
def sampleHash (p : String) : String := "$2b$10$" ++ p

/-- A sample Google client: it accepts the two tokens `"ann-1"` and `"ann-2"`,
both for the verified email `"ann@x.com"` with different subject ids, and
rejects every other token. -/
def sampleVerifyIdToken (tokenId : String) : Except String GooglePayload :=
  if tokenId = "ann-1" then
    Except.ok { email_verified := true, email := "ann@x.com", given_name := some "Ann",
                family_name := some "Lee", sub := "g-1" }
  else if tokenId = "ann-2" then
    Except.ok { email_verified := true, email := "ann@x.com", given_name := some "Ann",
                family_name := some "Lee", sub := "g-2" }
  else Except.error "Wrong number of segments in token"

/-- A sample environment. -/
def sampleEnv : Env :=
  { ACCESS_TOKEN_SECRET := "access", REFRESH_TOKEN_SECRET := "refresh",
    RESET_TOKEN_SECRET := "reset", now := 1000,
    bcryptHash := sampleHash,
    bcryptCompare := fun p h => decide (h = sampleHash p),
    verifyIdToken := sampleVerifyIdToken,
    newObjectId := "id-9", defaultRole := "user" }

/-- A sample account, with password `"pw"`. -/
def ann : User :=
  { _id := "id-1", firstName := some "Ann", lastName := some "Lee", email := "ann@x.com",
    phone := some "1", password := sampleHash "pw", role := "user", isBlocked := false,
    googleId := none }

/-- The sample account, blocked. -/
def annBlocked : User := { ann with isBlocked := true }

/-- A blocked account for the sample email that was created by federated
sign-in: its password hash is empty. -/
def annFederatedBlocked : User :=
  { _id := "id-2", firstName := some "Ann", lastName := some "Lee", email := "ann@x.com",
    phone := none, password := "", role := "user", isBlocked := true,
    googleId := some "g-1" }

/-- The sample account, linked to a Google identity. -/
def annLinked : User := { ann with googleId := some "g-0" }

/-- A sample OTP ledger: `"111111"` was issued to `"bob@x.com"` first, then `"222222"`. -/
def sampleOtps : List OtpRecord :=
  [{ email := "bob@x.com", otp := "111111", createdAt := 5 },
   { email := "bob@x.com", otp := "222222", createdAt := 7 }]

/-- A sample sign-up request for `"bob@x.com"` with the given one-time password. -/
def bobSignUp (otp : String) : SignUpBody :=
  { firstName := some "Bob", lastName := some "Ray", email := some "bob@x.com",
    phone := some "2", password := some "p1", otp := some otp }

/-- An account for `"bob@x.com"` that another sign-up request inserts. -/
def bobElsewhere : User :=
  { _id := "id-8", firstName := some "Bob", lastName := some "Ray", email := "bob@x.com",
    phone := some "2", password := sampleHash "p1", role := "user", isBlocked := false,
    googleId := none }

/-- A sample reset token for the sample account, signed with the reset secret
of the sample environment, that expired at time 900. -/
def expiredResetToken : Token :=
  Token.jwt { userInfo := none, id := none, role := none, email := some "ann@x.com" }
    "reset" (some 900)

/-- A sample reset token, signed with the reset secret of the sample
environment and not expired, whose claims have no email. -/
def emaillessResetToken : Token :=
  Token.jwt { userInfo := none, id := none, role := none, email := none }
    "reset" (some 2000)

/-! ## Lemmas on the store -/

theorem present_of_ne (s : String) (h : s ≠ "") : present (some s) = some s := by
  simp [present, h]

theorem findOne_none_of_absent (users : List User) (email : String)
    (h : ∀ u ∈ users, u.email ≠ email) : findOne users (some email) = none := by
  simp only [findOne, List.find?_eq_none]
  intro u hu
  simpa using h u hu

theorem findOne_undefined (users : List User) : findOne users none = none := by
  simp [findOne, List.find?_eq_none]

theorem findOne_some_of_present (users : List User) (email : String)
    (h : ∃ u ∈ users, u.email = email) :
    ∃ v, findOne users (some email) = some v ∧ v ∈ users ∧ v.email = email := by
  cases hf : findOne users (some email) with
  | none =>
    obtain ⟨u, hu, hue⟩ := h
    simp only [findOne, List.find?_eq_none] at hf
    have := hf u hu
    simp [hue] at this
  | some v =>
    refine ⟨v, rfl, ?_, ?_⟩
    · exact List.mem_of_find?_eq_some hf
    · have := List.find?_some hf
      simpa using this

theorem findOne_eq_of_unique (users : List User) (u : User)
    (huniq : emailsUnique users) (hu : u ∈ users) :
    findOne users (some u.email) = some u := by
  induction users with
  | nil => cases hu
  | cons a t ih =>
    unfold emailsUnique at huniq
    rw [List.pairwise_cons] at huniq
    by_cases hau : a = u
    · subst hau
      simp [findOne]
    · have hut : u ∈ t := by
        rcases List.mem_cons.mp hu with h | h
        · exact absurd h.symm hau
        · exact h
      have hne : a.email ≠ u.email := huniq.1 u hut
      have := ih huniq.2 hut
      simp only [findOne] at this ⊢
      rw [List.find?_cons_of_neg]
      · exact this
      · simpa using hne

theorem findLatestOtp_head (otps : List OtpRecord) (email : String) (r : OtpRecord)
    (t : List OtpRecord) (h : findLatestOtp otps email = r :: t) :
    mostRecentFor otps email r := by
  have hsorted : ((otps.filter (fun r => decide (r.email = email))).insertionSort
      newerFirst).Sorted newerFirst := List.sorted_insertionSort _ _
  have hperm := List.perm_insertionSort newerFirst
    (otps.filter (fun r => decide (r.email = email)))
  unfold findLatestOtp at h
  generalize (otps.filter (fun r => decide (r.email = email))).insertionSort newerFirst = s
    at h hsorted hperm
  cases s with
  | nil => simp at h
  | cons a s' =>
    simp at h
    obtain ⟨rfl, -⟩ := h
    have ha : a ∈ otps.filter (fun r => decide (r.email = email)) :=
      hperm.subset (List.mem_cons_self _ _)
    rw [List.mem_filter] at ha
    refine ⟨ha.1, by simpa using ha.2, ?_⟩
    intro q hq hqe
    have hq' : q ∈ a :: s' := hperm.symm.subset (by
      rw [List.mem_filter]; exact ⟨hq, by simpa using hqe⟩)
    rcases List.mem_cons.mp hq' with h1 | h1
    · rw [h1]
    · exact List.rel_of_sorted_cons hsorted q h1

theorem findLatestOtp_nil (otps : List OtpRecord) (email : String)
    (h : findLatestOtp otps email = []) : ∀ q ∈ otps, q.email ≠ email := by
  intro q hq hqe
  have hperm := List.perm_insertionSort newerFirst
    (otps.filter (fun r => decide (r.email = email)))
  unfold findLatestOtp at h
  generalize (otps.filter (fun r => decide (r.email = email))).insertionSort newerFirst = s
    at h hperm
  cases s with
  | nil =>
    have : q ∈ ([] : List OtpRecord) := hperm.symm.subset (by
      rw [List.mem_filter]; exact ⟨hq, by simpa using hqe⟩)
    cases this
  | cons a s' => simp at h

/-! ## Login -/

/-- C1, as stated, fails: the password `123` is truthy and passes validation;
with no account for `"ann@x.com"` `login` answers 401, and with the sample
account stored `bcrypt.compare` throws and `login` answers 500 "Error
logging in". -/
theorem login_non_string_password_distinguishes :
    (login sampleEnv { email := some "ann@x.com", password := JsValue.number 123 }
        { users := [], otps := [] }).1
      = { status := 401, message := "Email or password is incorrect",
          accessToken := none, role := none, cookie := none }
    ∧ (login sampleEnv { email := some "ann@x.com", password := JsValue.number 123 }
        { users := [ann], otps := [] }).1
      = { status := 500, message := "Error logging in",
          accessToken := none, role := none, cookie := none }
    ∧ (login sampleEnv { email := some "ann@x.com", password := JsValue.number 123 }
        { users := [], otps := [] }).1
      ≠ (login sampleEnv { email := some "ann@x.com", password := JsValue.number 123 }
        { users := [ann], otps := [] }).1 := by
  decide

/-- C1, amended: login answers an unknown email and a wrong password alike
when the password is a string.  For a request whose email and password are
non-empty strings, a store with no account for the email and a store whose
accounts for the email all fail the password comparison (blocked or not) get
the same response: status 401, the same message, no access token, no cookie;
and neither store is written. -/
theorem login_unknown_email_same_as_wrong_password (env : Env) (email password : String)
    (db₁ db₂ : Db) (he : email ≠ "") (hp : password ≠ "")
    (h₁ : ∀ u ∈ db₁.users, u.email ≠ email)
    (h₂ : ∃ u ∈ db₂.users, u.email = email)
    (hwrong : ∀ u ∈ db₂.users, u.email = email →
      env.bcryptCompare password u.password = false) :
    (login env { email := some email, password := JsValue.string password } db₁).1
        = (login env { email := some email, password := JsValue.string password } db₂).1
      ∧ (login env { email := some email, password := JsValue.string password } db₂).1
        = { status := 401, message := "Email or password is incorrect",
            accessToken := none, role := none, cookie := none }
      ∧ (login env { email := some email, password := JsValue.string password } db₁).2 = db₁
      ∧ (login env { email := some email, password := JsValue.string password } db₂).2
        = db₂ := by
  obtain ⟨v, hv, hvm, hve⟩ := findOne_some_of_present db₂.users email h₂
  have hc := hwrong v hvm hve
  have hn := findOne_none_of_absent db₁.users email h₁
  simp [login, loginTry, tryCatch, bcryptCompareJs, JsValue.truthy, present_of_ne, he, hp,
    hn, hv, hc, json]

/-- Witness for C1, amended: `"ann@x.com"` is unknown to the empty store and
stored, blocked, with another password in the second store. -/
theorem login_unknown_email_same_as_wrong_password_witness :
    (login sampleEnv { email := some "ann@x.com", password := JsValue.string "bad" }
        { users := [], otps := [] }).1
      = (login sampleEnv { email := some "ann@x.com", password := JsValue.string "bad" }
        { users := [annBlocked], otps := [] }).1
    ∧ (login sampleEnv { email := some "ann@x.com", password := JsValue.string "bad" }
        { users := [annBlocked], otps := [] }).1
      = { status := 401, message := "Email or password is incorrect",
          accessToken := none, role := none, cookie := none }
    ∧ (login sampleEnv { email := some "ann@x.com", password := JsValue.string "bad" }
        { users := [], otps := [] }).2 = { users := [], otps := [] }
    ∧ (login sampleEnv { email := some "ann@x.com", password := JsValue.string "bad" }
        { users := [annBlocked], otps := [] }).2 = { users := [annBlocked], otps := [] } :=
  login_unknown_email_same_as_wrong_password sampleEnv "ann@x.com" "bad"
    { users := [], otps := [] } { users := [annBlocked], otps := [] }
    (by decide) (by decide) (by simp) ⟨annBlocked, by simp, by decide⟩
    (by
      intro u hu _
      have : u = annBlocked := by simpa using hu
      subst this
      decide)

/-- C2: a blocked account is refused by `login` and by `googleSignIn` even
with correct credentials.  In a store with unique emails that holds a blocked
account: `login` with the account's email and any password that verifies
against its hash answers 403; and, whatever the account's password hash,
`googleSignIn` with any token the verifier accepts for the account's email,
verified, answers 403.  Both send no access token and no cookie and leave
the store as it was (no federated-identity id is backfilled). -/
theorem blocked_account_refused (env : Env) (db : Db) (u : User)
    (huniq : emailsUnique db.users) (hu : u ∈ db.users) (hblocked : u.isBlocked = true) :
    (∀ password : String, u.email ≠ "" → password ≠ "" →
        env.bcryptCompare password u.password = true →
        login env { email := some u.email, password := JsValue.string password } db
          = ({ status := 403, message := "Your account has been blocked",
               accessToken := none, role := none, cookie := none }, db))
      ∧ (∀ (tokenId : String) (payload : GooglePayload), tokenId ≠ "" →
        env.verifyIdToken tokenId = Except.ok payload →
        payload.email_verified = true → payload.email = u.email →
        googleSignIn env (some tokenId) db
          = ({ status := 403, message := "Your account has been blocked",
               accessToken := none, role := none, cookie := none }, db)) := by
  have hf := findOne_eq_of_unique db.users u huniq hu
  constructor
  · intro password he hp hpw
    simp [login, loginTry, tryCatch, bcryptCompareJs, JsValue.truthy, present_of_ne, he, hp,
      hf, hpw, hblocked, json]
  · intro tokenId payload ht hverify hverified hpe
    simp [googleSignIn, googleSignInTry, tryCatch, present_of_ne, ht, hverify, hverified,
      hpe, hf, hblocked, json]

/-- Witness for C2: the blocked sample account with its password `"pw"` and
the accepted token `"ann-1"`, and the blocked federation-only account, whose
hash is empty, with the same token. -/
theorem blocked_account_refused_witness :
    login sampleEnv { email := some "ann@x.com", password := JsValue.string "pw" }
        { users := [annBlocked], otps := [] }
        = ({ status := 403, message := "Your account has been blocked",
             accessToken := none, role := none, cookie := none },
           { users := [annBlocked], otps := [] })
      ∧ googleSignIn sampleEnv (some "ann-1") { users := [annBlocked], otps := [] }
        = ({ status := 403, message := "Your account has been blocked",
             accessToken := none, role := none, cookie := none },
           { users := [annBlocked], otps := [] })
      ∧ googleSignIn sampleEnv (some "ann-1") { users := [annFederatedBlocked], otps := [] }
        = ({ status := 403, message := "Your account has been blocked",
             accessToken := none, role := none, cookie := none },
           { users := [annFederatedBlocked], otps := [] }) :=
  ⟨(blocked_account_refused sampleEnv { users := [annBlocked], otps := [] } annBlocked
      (by simp [emailsUnique]) (by simp) (by decide)).1 "pw" (by decide) (by decide)
      (by decide),
   (blocked_account_refused sampleEnv { users := [annBlocked], otps := [] } annBlocked
      (by simp [emailsUnique]) (by simp) (by decide)).2 "ann-1"
      { email_verified := true, email := "ann@x.com", given_name := some "Ann",
        family_name := some "Lee", sub := "g-1" } (by decide) rfl rfl rfl,
   (blocked_account_refused sampleEnv { users := [annFederatedBlocked], otps := [] }
      annFederatedBlocked (by simp [emailsUnique]) (by simp) (by decide)).2 "ann-1"
      { email_verified := true, email := "ann@x.com", given_name := some "Ann",
        family_name := some "Lee", sub := "g-1" } (by decide) rfl rfl rfl⟩

/-! ## Sign-up -/

/-- C3: `signUp` answers a request for an email that is already stored with
the conflict response, whatever the OTP ledger holds.  With all six fields
non-empty and an account for `email` in the store, the response is 400
"Email already in use." with no token and no cookie, and the store is as it
was, for every ledger `db.otps` and every supplied `otp`. -/
theorem signUp_existing_email_conflict (env : Env)
    (firstName lastName email phone password otp : String) (db : Db) (racing : List User)
    (hf : firstName ≠ "") (hl : lastName ≠ "") (he : email ≠ "") (hph : phone ≠ "")
    (hp : password ≠ "") (ho : otp ≠ "")
    (hexists : ∃ u ∈ db.users, u.email = email) :
    signUp env { firstName := some firstName, lastName := some lastName,
                 email := some email, phone := some phone, password := some password,
                 otp := some otp } db racing
      = ({ status := 400, message := "Email already in use.",
           accessToken := none, role := none, cookie := none }, db) := by
  obtain ⟨v, hv, -, -⟩ := findOne_some_of_present db.users email hexists
  simp [signUp, signUpTry, tryCatch, present_of_ne, hf, hl, he, hph, hp, ho, hv, json]

/-- Witness for C3: the sample account's email, with the most recent code of
a ledger that holds records for it. -/
theorem signUp_existing_email_conflict_witness :
    signUp sampleEnv { firstName := some "Ann", lastName := some "Lee",
                       email := some "ann@x.com", phone := some "1",
                       password := some "pw", otp := some "333333" }
        { users := [ann], otps := [{ email := "ann@x.com", otp := "333333", createdAt := 9 }] }
        []
      = ({ status := 400, message := "Email already in use.",
           accessToken := none, role := none, cookie := none },
         { users := [ann],
           otps := [{ email := "ann@x.com", otp := "333333", createdAt := 9 }] }) :=
  signUp_existing_email_conflict sampleEnv "Ann" "Lee" "ann@x.com" "1" "pw" "333333"
    { users := [ann], otps := [{ email := "ann@x.com", otp := "333333", createdAt := 9 }] }
    [] (by decide) (by decide) (by decide) (by decide) (by decide) (by decide)
    ⟨ann, by simp, by decide⟩

/-- C4: `signUp` refuses a one-time password that is not the most recently
issued one.  With all six fields non-empty and no account for `email`, if
every most recent record of the ledger for `email` carries a code other than
`otp` (in particular if the ledger has no record for `email`, and also when
an older record carries exactly `otp`), the response is 422 "Invalid OTP"
with no token and no cookie, and no account is created. -/
theorem signUp_stale_otp_refused (env : Env)
    (firstName lastName email phone password otp : String) (db : Db) (racing : List User)
    (hf : firstName ≠ "") (hl : lastName ≠ "") (he : email ≠ "") (hph : phone ≠ "")
    (hp : password ≠ "") (ho : otp ≠ "")
    (hnew : ∀ u ∈ db.users, u.email ≠ email)
    (hstale : ∀ r, mostRecentFor db.otps email r → r.otp ≠ otp) :
    signUp env { firstName := some firstName, lastName := some lastName,
                 email := some email, phone := some phone, password := some password,
                 otp := some otp } db racing
      = ({ status := 422, message := "Invalid OTP",
           accessToken := none, role := none, cookie := none }, db) := by
  have hn := findOne_none_of_absent db.users email hnew
  cases hl : findLatestOtp db.otps email with
  | nil =>
    simp [signUp, signUpTry, tryCatch, present_of_ne, hf, he, hph, hp, ho, hn, hl, json, *]
  | cons r t =>
    have hr := hstale r (findLatestOtp_head db.otps email r t hl)
    simp [signUp, signUpTry, tryCatch, present_of_ne, hf, he, hph, hp, ho, hn, hl, hr, json, *]

/-- Witness for C4: the sample ledger issued `"111111"` and later `"222222"`
to `"bob@x.com"`; the older code `"111111"` is refused. -/
theorem signUp_stale_otp_refused_witness :
    signUp sampleEnv (bobSignUp "111111") { users := [ann], otps := sampleOtps } []
      = ({ status := 422, message := "Invalid OTP",
           accessToken := none, role := none, cookie := none },
         { users := [ann], otps := sampleOtps }) :=
  signUp_stale_otp_refused sampleEnv "Bob" "Ray" "bob@x.com" "2" "p1" "111111"
    { users := [ann], otps := sampleOtps } []
    (by decide) (by decide) (by decide) (by decide) (by decide) (by decide)
    (by
      intro u hu
      have : u = ann := by simpa using hu
      subst this
      decide)
    (by
      intro r hr
      obtain ⟨hmem, -, hmax⟩ := hr
      have h2 := hmax { email := "bob@x.com", otp := "222222", createdAt := 7 }
        (by simp [sampleOtps]) rfl
      simp only [sampleOtps, List.mem_cons, List.mem_singleton, List.not_mem_nil,
        or_false] at hmem
      rcases hmem with h | h
      · subst h
        simp at h2
      · subst h
        decide)

theorem findLatestOtp_cons_of_issued (otps : List OtpRecord) (email : String)
    (h : ∃ r ∈ otps, r.email = email) :
    ∃ r t, findLatestOtp otps email = r :: t ∧ mostRecentFor otps email r := by
  cases hl : findLatestOtp otps email with
  | nil =>
    obtain ⟨r, hr, hre⟩ := h
    exact absurd hre (findLatestOtp_nil otps email hl r hr)
  | cons r t => exact ⟨r, t, rfl, findLatestOtp_head otps email r t hl⟩

theorem insertUser_fresh (users : List User) (u : User)
    (h : ∀ v ∈ users, v.email ≠ u.email) : insertUser users u = Except.ok (users ++ [u]) := by
  have : users.any (fun v => decide (v.email = u.email)) = false := by
    rw [List.any_eq_false]
    intro v hv
    simpa using h v hv
  simp [insertUser, this]

theorem insertUser_duplicate (users : List User) (u : User)
    (h : ∃ v ∈ users, v.email = u.email) :
    insertUser users u = Except.error (Thrown.duplicateKey u.email) := by
  have : users.any (fun v => decide (v.email = u.email)) = true := by
    rw [List.any_eq_true]
    obtain ⟨v, hv, hve⟩ := h
    exact ⟨v, hv, by simpa using hve⟩
  simp [insertUser, this]

/-- C9: a successful `signUp` creates exactly one account and issues both
tokens for it.  With all six fields non-empty, no account for `email` stored
or inserted meanwhile, and `otp` the code of the most recent record of the
ledger for `email`, the store gains exactly the one new account, appended
(with the hash of the password, the default role and not blocked), every
other account is as it was, the response is 201 with message, access token
and role, the access token verifies under the access secret to the nested
claims `userInfo: (id, role)` and the refresh token of the cookie verifies
under the refresh secret to the flat claims `id`, `role` of the new account. -/
theorem signUp_success (env : Env)
    (firstName lastName email phone password otp : String) (db : Db) (racing : List User)
    (hf : firstName ≠ "") (hl : lastName ≠ "") (he : email ≠ "") (hph : phone ≠ "")
    (hp : password ≠ "") (ho : otp ≠ "")
    (hnew : ∀ u ∈ db.users, u.email ≠ email)
    (hrace : ∀ u ∈ racing, u.email ≠ email)
    (hissued : ∃ r ∈ db.otps, r.email = email)
    (hotp : ∀ r, mostRecentFor db.otps email r → r.otp = otp) :
    ∃ accessToken refreshToken,
      signUp env { firstName := some firstName, lastName := some lastName,
                   email := some email, phone := some phone, password := some password,
                   otp := some otp } db racing
        = ({ status := 201, message := "User created successfully",
             accessToken := some accessToken, role := some env.defaultRole,
             cookie := some { name := "jwt", value := refreshToken, httpOnly := true,
                              secure := false, sameSite := "lax",
                              maxAge := 60 * 60 * 1000 } },
           { users := db.users ++ racing ++
               [{ _id := env.newObjectId, firstName := some firstName,
                  lastName := some lastName, email := email, phone := some phone,
                  password := env.bcryptHash password, role := env.defaultRole,
                  isBlocked := false, googleId := none }],
             otps := db.otps })
      ∧ jwtVerify accessToken env.ACCESS_TOKEN_SECRET env.now
        = Except.ok { userInfo := some (env.newObjectId, env.defaultRole), id := none,
                      role := none, email := none }
      ∧ jwtVerify refreshToken env.REFRESH_TOKEN_SECRET env.now
        = Except.ok { userInfo := none, id := some env.newObjectId,
                      role := some env.defaultRole, email := none } := by
  have hn := findOne_none_of_absent db.users email hnew
  obtain ⟨r, t, hlatest, hr⟩ := findLatestOtp_cons_of_issued db.otps email hissued
  have hcode := hotp r hr
  have hins := insertUser_fresh (db.users ++ racing)
    { _id := env.newObjectId, firstName := some firstName, lastName := some lastName,
      email := email, phone := some phone, password := env.bcryptHash password,
      role := env.defaultRole, isBlocked := false, googleId := none }
    (by
      intro v hv
      rcases List.mem_append.mp hv with h | h
      · exact hnew v h
      · exact hrace v h)
  refine ⟨accessTokenFor env
      { _id := env.newObjectId, firstName := some firstName, lastName := some lastName,
        email := email, phone := some phone, password := env.bcryptHash password,
        role := env.defaultRole, isBlocked := false, googleId := none },
    refreshTokenFor env
      { _id := env.newObjectId, firstName := some firstName, lastName := some lastName,
        email := email, phone := some phone, password := env.bcryptHash password,
        role := env.defaultRole, isBlocked := false, googleId := none }, ?_, ?_, ?_⟩
  · simp [signUp, signUpTry, tryCatch, present_of_ne, hf, hl, he, hph, hp, ho, hn, hlatest,
      hcode, hins, signedIn, refreshCookie]
  · simp [accessTokenFor, jwtSign, jwtVerify]
  · simp [refreshTokenFor, jwtSign, jwtVerify]

/-- Witness for C9: the sample request with the most recent code `"222222"`. -/
theorem signUp_success_witness :
    ∃ accessToken refreshToken,
      signUp sampleEnv (bobSignUp "222222") { users := [ann], otps := sampleOtps } []
        = ({ status := 201, message := "User created successfully",
             accessToken := some accessToken, role := some sampleEnv.defaultRole,
             cookie := some { name := "jwt", value := refreshToken, httpOnly := true,
                              secure := false, sameSite := "lax",
                              maxAge := 60 * 60 * 1000 } },
           { users := [ann] ++ [] ++
               [{ _id := sampleEnv.newObjectId, firstName := some "Bob",
                  lastName := some "Ray", email := "bob@x.com", phone := some "2",
                  password := sampleEnv.bcryptHash "p1", role := sampleEnv.defaultRole,
                  isBlocked := false, googleId := none }],
             otps := sampleOtps })
      ∧ jwtVerify accessToken sampleEnv.ACCESS_TOKEN_SECRET sampleEnv.now
        = Except.ok { userInfo := some (sampleEnv.newObjectId, sampleEnv.defaultRole),
                      id := none, role := none, email := none }
      ∧ jwtVerify refreshToken sampleEnv.REFRESH_TOKEN_SECRET sampleEnv.now
        = Except.ok { userInfo := none, id := some sampleEnv.newObjectId,
                      role := some sampleEnv.defaultRole, email := none } :=
  signUp_success sampleEnv "Bob" "Ray" "bob@x.com" "2" "p1" "222222"
    { users := [ann], otps := sampleOtps } []
    (by decide) (by decide) (by decide) (by decide) (by decide) (by decide)
    (by
      intro u hu
      have : u = ann := by simpa using hu
      subst this
      decide)
    (by simp)
    ⟨{ email := "bob@x.com", otp := "222222", createdAt := 7 }, by simp [sampleOtps], rfl⟩
    (by
      intro r hr
      obtain ⟨hmem, -, hmax⟩ := hr
      have h2 := hmax { email := "bob@x.com", otp := "222222", createdAt := 7 }
        (by simp [sampleOtps]) rfl
      simp only [sampleOtps, List.mem_cons, List.mem_singleton, List.not_mem_nil,
        or_false] at hmem
      rcases hmem with h | h
      · subst h
        simp at h2
      · subst h
        rfl)

/-- C10, as stated, fails: when another request inserts an account for the
same email between the lookups and `user.save()`, the insert throws and
`signUp` answers 500 "Error creating user", while the duplicate-email check
answers the same email, once stored, with 400 "Email already in use.". -/
theorem signUp_racing_duplicate_is_not_conflict :
    (signUp sampleEnv (bobSignUp "222222") { users := [ann], otps := sampleOtps }
        [bobElsewhere]).1
      = { status := 500, message := "Error creating user",
          accessToken := none, role := none, cookie := none }
    ∧ (signUp sampleEnv (bobSignUp "222222")
        { users := [ann, bobElsewhere], otps := sampleOtps } []).1
      = { status := 400, message := "Email already in use.",
          accessToken := none, role := none, cookie := none }
    ∧ (signUp sampleEnv (bobSignUp "222222") { users := [ann], otps := sampleOtps }
        [bobElsewhere]).1
      ≠ (signUp sampleEnv (bobSignUp "222222")
        { users := [ann, bobElsewhere], otps := sampleOtps } []).1 := by
  decide

/-- C10, amended: a `signUp` request that passes field validation, the
existing-account lookup and the OTP check, and whose insert then fails
because another request stored an account with the same email meanwhile,
gets the response of the `catch` block, 500 "Error creating user", with no
token and no cookie, and adds no account of its own. -/
theorem signUp_racing_duplicate_internal_error (env : Env)
    (firstName lastName email phone password otp : String) (db : Db) (racing : List User)
    (hf : firstName ≠ "") (hl : lastName ≠ "") (he : email ≠ "") (hph : phone ≠ "")
    (hp : password ≠ "") (ho : otp ≠ "")
    (hnew : ∀ u ∈ db.users, u.email ≠ email)
    (hissued : ∃ r ∈ db.otps, r.email = email)
    (hotp : ∀ r, mostRecentFor db.otps email r → r.otp = otp)
    (hrace : ∃ u ∈ racing, u.email = email) :
    signUp env { firstName := some firstName, lastName := some lastName,
                 email := some email, phone := some phone, password := some password,
                 otp := some otp } db racing
      = ({ status := 500, message := "Error creating user",
           accessToken := none, role := none, cookie := none },
         { users := db.users ++ racing, otps := db.otps }) := by
  have hn := findOne_none_of_absent db.users email hnew
  obtain ⟨r, t, hlatest, hr⟩ := findLatestOtp_cons_of_issued db.otps email hissued
  have hcode := hotp r hr
  have hins := insertUser_duplicate (db.users ++ racing)
    { _id := env.newObjectId, firstName := some firstName, lastName := some lastName,
      email := email, phone := some phone, password := env.bcryptHash password,
      role := env.defaultRole, isBlocked := false, googleId := none }
    (by
      obtain ⟨u, hu, hue⟩ := hrace
      exact ⟨u, List.mem_append_right _ hu, hue⟩)
  simp [signUp, signUpTry, tryCatch, signUpCatch, present_of_ne, hf, hl, he, hph, hp, ho, hn,
    hlatest, hcode, hins, json]

/-- Witness for C10, amended: the sample request against a store that gains
an account for `"bob@x.com"` while the request runs. -/
theorem signUp_racing_duplicate_internal_error_witness :
    signUp sampleEnv (bobSignUp "222222") { users := [ann], otps := sampleOtps }
        [bobElsewhere]
      = ({ status := 500, message := "Error creating user",
           accessToken := none, role := none, cookie := none },
         { users := [ann] ++ [bobElsewhere], otps := sampleOtps }) :=
  signUp_racing_duplicate_internal_error sampleEnv "Bob" "Ray" "bob@x.com" "2" "p1" "222222"
    { users := [ann], otps := sampleOtps } [bobElsewhere]
    (by decide) (by decide) (by decide) (by decide) (by decide) (by decide)
    (by
      intro u hu
      have : u = ann := by simpa using hu
      subst this
      decide)
    ⟨{ email := "bob@x.com", otp := "222222", createdAt := 7 }, by simp [sampleOtps], rfl⟩
    (by
      intro r hr
      obtain ⟨hmem, -, hmax⟩ := hr
      have h2 := hmax { email := "bob@x.com", otp := "222222", createdAt := 7 }
        (by simp [sampleOtps]) rfl
      simp only [sampleOtps, List.mem_cons, List.mem_singleton, List.not_mem_nil,
        or_false] at hmem
      rcases hmem with h | h
      · subst h
        simp at h2
      · subst h
        rfl)
    ⟨bobElsewhere, by simp, rfl⟩

/-! ## Federated sign-in -/

/-- C8, as stated, fails: the sample Google client rejects the token
`"forged"`, and `googleSignIn` answers 500 "Error during Google sign in",
not 401. -/
theorem googleSignIn_rejected_token_is_not_401 :
    sampleEnv.verifyIdToken "forged" = Except.error "Wrong number of segments in token"
    ∧ googleSignIn sampleEnv (some "forged") { users := [ann], otps := [] }
      = ({ status := 500, message := "Error during Google sign in",
           accessToken := none, role := none, cookie := none },
         { users := [ann], otps := [] })
    ∧ (googleSignIn sampleEnv (some "forged") { users := [ann], otps := [] }).1.status
      ≠ 401 :=
  ⟨rfl, by decide, by decide⟩

/-- C8, amended: when the Google client rejects a non-empty identity token,
`googleSignIn` answers with the response of its `catch` block, 500 "Error
during Google sign in", which is the response it gives to every thrown
error, a storage fault included; it sends no token, sets no cookie and
leaves the store as it was. -/
theorem googleSignIn_rejected_token_internal_error (env : Env) (tokenId reason : String)
    (db : Db) (ht : tokenId ≠ "")
    (hrejected : env.verifyIdToken tokenId = Except.error reason) :
    googleSignIn env (some tokenId) db
        = ({ status := 500, message := "Error during Google sign in",
             accessToken := none, role := none, cookie := none }, db)
      ∧ ∀ e : Thrown, googleSignInCatch e = (googleSignIn env (some tokenId) db).1 := by
  have h : googleSignIn env (some tokenId) db
      = ({ status := 500, message := "Error during Google sign in",
           accessToken := none, role := none, cookie := none }, db) := by
    simp [googleSignIn, googleSignInTry, tryCatch, googleSignInCatch, present_of_ne, ht,
      hrejected, json]
  refine ⟨h, ?_⟩
  intro e
  rw [h]
  rfl

/-- Witness for C8, amended: the token `"forged"`. -/
theorem googleSignIn_rejected_token_internal_error_witness :
    googleSignIn sampleEnv (some "forged") { users := [ann], otps := [] }
        = ({ status := 500, message := "Error during Google sign in",
             accessToken := none, role := none, cookie := none },
           { users := [ann], otps := [] })
      ∧ ∀ e : Thrown, googleSignInCatch e
          = (googleSignIn sampleEnv (some "forged") { users := [ann], otps := [] }).1 :=
  googleSignIn_rejected_token_internal_error sampleEnv "forged"
    "Wrong number of segments in token" { users := [ann], otps := [] } (by decide) rfl

/-! ## Password reset -/

/-- C6, on the code: when verification of a present reset cookie fails,
`resetPassword` with a non-empty new password leaves the store, and so every
password hash, as it was, but answers 500 "Error during password reset";
`checkResetToken` answers the same cookie with 401. -/
theorem resetPassword_failed_verification (env : Env) (newPassword : String)
    (resetToken : Token) (e : JwtError) (db : Db)
    (hn : newPassword ≠ "") (hcookie : Token.truthy (some resetToken) = true)
    (hfail : jwtVerify resetToken env.RESET_TOKEN_SECRET env.now = Except.error e) :
    resetPassword env (some newPassword) (some resetToken) db
        = ({ status := 500, message := "Error during password reset",
             accessToken := none, role := none, cookie := none }, db)
      ∧ checkResetToken env (some resetToken) db
        = ({ status := 401, message := "Invalid or expired token",
             accessToken := none, role := none, cookie := none }, db) := by
  constructor
  · simp [resetPassword, resetPasswordTry, tryCatch, resetPasswordCatch, present_of_ne, hn,
      Token.present, hcookie, hfail, json]
  · simp [checkResetToken, checkResetTokenTry, tryCatch, checkResetTokenCatch,
      Token.present, hcookie, hfail, json]

/-- Witness for C6, on the code: the expired sample reset token. -/
theorem resetPassword_failed_verification_witness :
    resetPassword sampleEnv (some "new") (some expiredResetToken)
        { users := [ann], otps := [] }
        = ({ status := 500, message := "Error during password reset",
             accessToken := none, role := none, cookie := none },
           { users := [ann], otps := [] })
      ∧ checkResetToken sampleEnv (some expiredResetToken) { users := [ann], otps := [] }
        = ({ status := 401, message := "Invalid or expired token",
             accessToken := none, role := none, cookie := none },
           { users := [ann], otps := [] }) :=
  resetPassword_failed_verification sampleEnv "new" expiredResetToken JwtError.expired
    { users := [ann], otps := [] } (by decide) (by decide) rfl

/-- C7, on the code: for a reset token that is signed with the reset secret
and not expired but whose claims have no truthy email, `checkResetToken`
answers 401 "Invalid token" without a lookup, while `resetPassword` with a
non-empty new password does not check the claim: it looks the account up
with the claim as it is and answers 404 "User not found" or, when the lookup
finds an account, 200; with the email claim absent it answers 404. -/
theorem resetPassword_skips_email_claim_check (env : Env) (newPassword : String)
    (claims : Claims) (exp : Option Nat) (db : Db)
    (hn : newPassword ≠ "")
    (hexp : ∀ e, exp = some e → env.now < e)
    (hemail : truthy claims.email = false) :
    checkResetToken env (some (Token.jwt claims env.RESET_TOKEN_SECRET exp)) db
        = ({ status := 401, message := "Invalid token",
             accessToken := none, role := none, cookie := none }, db)
      ∧ (claims.email = none →
          resetPassword env (some newPassword)
              (some (Token.jwt claims env.RESET_TOKEN_SECRET exp)) db
            = ({ status := 404, message := "User not found",
                 accessToken := none, role := none, cookie := none }, db))
      ∧ ((resetPassword env (some newPassword)
              (some (Token.jwt claims env.RESET_TOKEN_SECRET exp)) db).1
            = { status := 404, message := "User not found",
                accessToken := none, role := none, cookie := none }
          ∨ (resetPassword env (some newPassword)
              (some (Token.jwt claims env.RESET_TOKEN_SECRET exp)) db).1
            = { status := 200, message := "Password reset successfully",
                accessToken := none, role := none, cookie := none }) := by
  have hverify : jwtVerify (Token.jwt claims env.RESET_TOKEN_SECRET exp)
      env.RESET_TOKEN_SECRET env.now = Except.ok claims := by
    cases exp with
    | none => simp [jwtVerify]
    | some e =>
      have := hexp e rfl
      simp [jwtVerify, Nat.not_le.mpr this]
  refine ⟨?_, ?_, ?_⟩
  · simp [checkResetToken, checkResetTokenTry, tryCatch, Token.present, Token.truthy,
      hverify, hemail, json]
  · intro hnone
    have hfound : findOne db.users claims.email = none := by
      rw [hnone]
      exact findOne_undefined db.users
    simp [resetPassword, resetPasswordTry, tryCatch, present_of_ne, hn, Token.present,
      Token.truthy, hverify, hfound, json]
  · cases hfound : findOne db.users claims.email with
    | none =>
      left
      simp [resetPassword, resetPasswordTry, tryCatch, present_of_ne, hn, Token.present,
        Token.truthy, hverify, hfound, json]
    | some found =>
      right
      simp [resetPassword, resetPasswordTry, tryCatch, present_of_ne, hn, Token.present,
        Token.truthy, hverify, hfound, json]

/-- Witness for C7, on the code: the sample reset token without an email. -/
theorem resetPassword_skips_email_claim_check_witness :
    checkResetToken sampleEnv (some emaillessResetToken) { users := [ann], otps := [] }
        = ({ status := 401, message := "Invalid token",
             accessToken := none, role := none, cookie := none },
           { users := [ann], otps := [] })
      ∧ resetPassword sampleEnv (some "new") (some emaillessResetToken)
          { users := [ann], otps := [] }
        = ({ status := 404, message := "User not found",
             accessToken := none, role := none, cookie := none },
           { users := [ann], otps := [] }) :=
  ⟨(resetPassword_skips_email_claim_check sampleEnv "new"
      { userInfo := none, id := none, role := none, email := none } (some 2000)
      { users := [ann], otps := [] } (by decide)
      (by intro e he; cases he; decide) rfl).1,
   (resetPassword_skips_email_claim_check sampleEnv "new"
      { userInfo := none, id := none, role := none, email := none } (some 2000)
      { users := [ann], otps := [] } (by decide)
      (by intro e he; cases he; decide) rfl).2.1 rfl⟩

/-! ## Lemmas on federated sign-in -/

theorem eq_of_id_eq (users : List User) (a b : User) (hids : idsUnique users)
    (ha : a ∈ users) (hb : b ∈ users) (h : a._id = b._id) : a = b := by
  induction users with
  | nil => cases ha
  | cons x t ih =>
    unfold idsUnique at hids
    rw [List.pairwise_cons] at hids
    rcases List.mem_cons.mp ha with rfl | ha'
    · rcases List.mem_cons.mp hb with rfl | hb'
      · rfl
      · exact absurd h (hids.1 b hb')
    · rcases List.mem_cons.mp hb with rfl | hb'
      · exact absurd h.symm (hids.1 a ha')
      · exact ih hids.2 ha' hb'

theorem keys_saveUser (users : List User) (found u : User) (hids : idsUnique users)
    (hfound : found ∈ users) (hid : u._id = found._id) (hemail : u.email = found.email) :
    keys (saveUser users u) = keys users := by
  unfold keys saveUser
  rw [List.map_map]
  apply List.map_congr_left
  intro v hv
  by_cases h : v._id = u._id
  · have hvf : v = found := eq_of_id_eq users v found hids hv hfound (h.trans hid)
    subst hvf
    simp [h, hemail]
  · simp [h]

theorem idsUnique_iff_keys (users : List User) :
    idsUnique users ↔ (keys users).Pairwise (fun a b => a.1 ≠ b.1) := by
  unfold idsUnique keys
  rw [List.pairwise_map]

theorem emailsUnique_iff_keys (users : List User) :
    emailsUnique users ↔ (keys users).Pairwise (fun a b => a.2 ≠ b.2) := by
  unfold emailsUnique keys
  rw [List.pairwise_map]

theorem accountsWith_eq_keys (users : List User) (email : String) :
    accountsWith users email = (keys users).countP (fun k => decide (k.2 = email)) := by
  unfold accountsWith keys
  rw [List.countP_map]
  rfl

theorem accountsWith_eq_one (users : List User) (u : User) (huniq : emailsUnique users)
    (hu : u ∈ users) : accountsWith users u.email = 1 := by
  induction users with
  | nil => cases hu
  | cons a t ih =>
    unfold emailsUnique at huniq
    rw [List.pairwise_cons] at huniq
    have hzero : ∀ (l : List User) (e : String), (∀ v ∈ l, v.email ≠ e) →
        accountsWith l e = 0 := by
      intro l e hl
      unfold accountsWith
      rw [List.countP_eq_zero]
      intro v hv
      simpa using hl v hv
    rcases List.mem_cons.mp hu with rfl | hut
    · have := hzero t u.email (fun v hv h => huniq.1 v hv h.symm)
      unfold accountsWith at this ⊢
      rw [List.countP_cons_of_pos]
      · omega
      · simp
    · have hne : a.email ≠ u.email := huniq.1 u hut
      have := ih huniq.2 hut
      unfold accountsWith at this ⊢
      rw [List.countP_cons_of_neg]
      · exact this
      · simpa using hne

theorem googleSignIn_found_keys (env : Env) (tokenId : String) (payload : GooglePayload)
    (db : Db) (hids : idsUnique db.users)
    (hverify : env.verifyIdToken tokenId = Except.ok payload)
    (hfound : ∃ u ∈ db.users, u.email = payload.email) :
    keys (googleSignIn env (some tokenId) db).2.users = keys db.users := by
  obtain ⟨v, hv, hvm, hve⟩ := findOne_some_of_present db.users payload.email hfound
  by_cases ht : tokenId = ""
  · simp [googleSignIn, present, ht]
  by_cases hver : payload.email_verified = true
  · by_cases hb : v.isBlocked = true
    · simp [googleSignIn, googleSignInTry, tryCatch, present_of_ne, ht, hverify, hver, hv, hb]
    · by_cases hg : truthy v.googleId = true
      · simp [googleSignIn, googleSignInTry, tryCatch, present_of_ne, ht, hverify, hver, hv,
          hb, hg]
      · simp [googleSignIn, googleSignInTry, tryCatch, present_of_ne, ht, hverify, hver, hv,
          hb, hg]
        exact keys_saveUser db.users v _ hids hvm rfl rfl
  · simp [googleSignIn, googleSignInTry, tryCatch, present_of_ne, ht, hverify, hver]

theorem googleSignIn_absent_users (env : Env) (tokenId : String) (payload : GooglePayload)
    (db : Db) (ht : tokenId ≠ "")
    (hverify : env.verifyIdToken tokenId = Except.ok payload)
    (hverified : payload.email_verified = true)
    (habsent : ∀ u ∈ db.users, u.email ≠ payload.email) :
    (googleSignIn env (some tokenId) db).2.users
      = db.users ++ [{ _id := env.newObjectId, firstName := payload.given_name,
                       lastName := payload.family_name, email := payload.email,
                       phone := none, password := "", role := env.defaultRole,
                       isBlocked := false, googleId := some payload.sub }] := by
  have hn := findOne_none_of_absent db.users payload.email habsent
  have hins := insertUser_fresh db.users
    { _id := env.newObjectId, firstName := payload.given_name,
      lastName := payload.family_name, email := payload.email, phone := none,
      password := "", role := env.defaultRole, isBlocked := false,
      googleId := some payload.sub } habsent
  simp [googleSignIn, googleSignInTry, tryCatch, present_of_ne, ht, hverify, hverified, hn,
    hins]

theorem mem_of_keys_eq (a b : List User) (h : keys a = keys b) (email : String)
    (hb : ∃ u ∈ b, u.email = email) : ∃ u ∈ a, u.email = email := by
  obtain ⟨u, hu, hue⟩ := hb
  have hk : (u._id, u.email) ∈ keys a := by
    rw [h]
    exact List.mem_map.mpr ⟨u, hu, rfl⟩
  obtain ⟨v, hv, hvk⟩ := List.mem_map.mp hk
  refine ⟨v, hv, ?_⟩
  have : v.email = u.email := congrArg Prod.snd hvk
  rw [this, hue]

theorem googleSignIn_store_valid (env : Env) (tokenId : String) (payload : GooglePayload)
    (db : Db) (ht : tokenId ≠ "")
    (hverify : env.verifyIdToken tokenId = Except.ok payload)
    (hverified : payload.email_verified = true)
    (huniq : emailsUnique db.users) (hids : idsUnique db.users)
    (hfresh : ∀ u ∈ db.users, u._id ≠ env.newObjectId) :
    idsUnique (googleSignIn env (some tokenId) db).2.users
      ∧ emailsUnique (googleSignIn env (some tokenId) db).2.users
      ∧ ∃ u ∈ (googleSignIn env (some tokenId) db).2.users, u.email = payload.email := by
  by_cases hfound : ∃ u ∈ db.users, u.email = payload.email
  · have hk := googleSignIn_found_keys env tokenId payload db hids hverify hfound
    refine ⟨?_, ?_, ?_⟩
    · rw [idsUnique_iff_keys, hk, ← idsUnique_iff_keys]
      exact hids
    · rw [emailsUnique_iff_keys, hk, ← emailsUnique_iff_keys]
      exact huniq
    · exact mem_of_keys_eq _ _ hk payload.email hfound
  · have habsent : ∀ u ∈ db.users, u.email ≠ payload.email := by
      intro u hu hue
      exact hfound ⟨u, hu, hue⟩
    have hu := googleSignIn_absent_users env tokenId payload db ht hverify hverified habsent
    rw [hu]
    refine ⟨?_, ?_, ?_⟩
    · unfold idsUnique
      rw [List.pairwise_append]
      refine ⟨hids, List.pairwise_singleton _ _, ?_⟩
      intro a ha b hb
      rw [List.mem_singleton] at hb
      subst hb
      exact hfresh a ha
    · unfold emailsUnique
      rw [List.pairwise_append]
      refine ⟨huniq, List.pairwise_singleton _ _, ?_⟩
      intro a ha b hb
      rw [List.mem_singleton] at hb
      subst hb
      exact habsent a ha
    · exact ⟨_, List.mem_append_right _ (List.mem_singleton.mpr rfl), rfl⟩

/-- C5: `googleSignIn` is idempotent on account creation and linking.  From
a store with unique emails and ids that does not yet use the id of the
document the first run may create, two runs with tokens the verifier accepts
for the same verified email leave exactly one account with that email, and
the second run creates none; and in every store with unique emails whose
account for that email has a non-empty federated-identity id, a run with
such a token, whatever subject id it carries, leaves the whole store, and so
that id, the password hash and every other field, as it was. -/
theorem googleSignIn_idempotent (env₁ env₂ : Env) (tokenId₁ tokenId₂ email : String)
    (payload₁ payload₂ : GooglePayload) (db : Db)
    (ht₁ : tokenId₁ ≠ "") (ht₂ : tokenId₂ ≠ "")
    (hverify₁ : env₁.verifyIdToken tokenId₁ = Except.ok payload₁)
    (hverify₂ : env₂.verifyIdToken tokenId₂ = Except.ok payload₂)
    (hverified₁ : payload₁.email_verified = true)
    (hverified₂ : payload₂.email_verified = true)
    (hemail₁ : payload₁.email = email) (hemail₂ : payload₂.email = email)
    (huniq : emailsUnique db.users) (hids : idsUnique db.users)
    (hfresh : ∀ u ∈ db.users, u._id ≠ env₁.newObjectId) :
    accountsWith (googleSignIn env₂ (some tokenId₂)
        (googleSignIn env₁ (some tokenId₁) db).2).2.users email = 1
      ∧ (googleSignIn env₂ (some tokenId₂) (googleSignIn env₁ (some tokenId₁) db).2).2.users.length
        = (googleSignIn env₁ (some tokenId₁) db).2.users.length
      ∧ ∀ (store : Db) (u : User), emailsUnique store.users → u ∈ store.users →
          u.email = email → truthy u.googleId = true →
          (googleSignIn env₂ (some tokenId₂) store).2 = store := by
  obtain ⟨hids₁, huniq₁, hmem₁⟩ := googleSignIn_store_valid env₁ tokenId₁ payload₁ db ht₁
    hverify₁ hverified₁ huniq hids hfresh
  rw [hemail₁] at hmem₁
  have hk := googleSignIn_found_keys env₂ tokenId₂ payload₂
    (googleSignIn env₁ (some tokenId₁) db).2 hids₁ hverify₂ (by rw [hemail₂]; exact hmem₁)
  refine ⟨?_, ?_, ?_⟩
  · rw [accountsWith_eq_keys, hk, ← accountsWith_eq_keys]
    obtain ⟨u, hu, hue⟩ := hmem₁
    rw [← hue]
    exact accountsWith_eq_one _ u huniq₁ hu
  · have := congrArg List.length hk
    simpa [keys] using this
  · intro store u hsu hu hue hg
    have hf := findOne_eq_of_unique store.users u hsu hu
    rw [hue] at hf
    by_cases hb : u.isBlocked = true
    · simp [googleSignIn, googleSignInTry, tryCatch, present_of_ne, ht₂, hverify₂,
        hverified₂, hemail₂, hf, hb]
    · simp [googleSignIn, googleSignInTry, tryCatch, present_of_ne, ht₂, hverify₂,
        hverified₂, hemail₂, hf, hb, hg]

/-- Witness for C5: the tokens `"ann-1"` and `"ann-2"` with subject ids
`"g-1"` and `"g-2"`, first against the empty store, then against a store in
which the sample account is linked to `"g-0"`. -/
theorem googleSignIn_idempotent_witness :
    accountsWith (googleSignIn sampleEnv (some "ann-2")
        (googleSignIn sampleEnv (some "ann-1") { users := [], otps := [] }).2).2.users
        "ann@x.com" = 1
      ∧ (googleSignIn sampleEnv (some "ann-2")
          (googleSignIn sampleEnv (some "ann-1") { users := [], otps := [] }).2).2.users.length
        = (googleSignIn sampleEnv (some "ann-1") { users := [], otps := [] }).2.users.length
      ∧ (googleSignIn sampleEnv (some "ann-2") { users := [annLinked], otps := [] }).2
        = { users := [annLinked], otps := [] } :=
  have h := googleSignIn_idempotent sampleEnv sampleEnv "ann-1" "ann-2" "ann@x.com"
    { email_verified := true, email := "ann@x.com", given_name := some "Ann",
      family_name := some "Lee", sub := "g-1" }
    { email_verified := true, email := "ann@x.com", given_name := some "Ann",
      family_name := some "Lee", sub := "g-2" }
    { users := [], otps := [] } (by decide) (by decide) rfl rfl rfl rfl rfl rfl
    (by simp [emailsUnique]) (by simp [idsUnique]) (by simp)
  ⟨h.1, h.2.1, h.2.2 { users := [annLinked], otps := [] } annLinked
    (by simp [emailsUnique]) (by simp) (by decide) (by decide)⟩

end JobPortal
